import Mathlib

/-
Verification of the durable conversation state machine of the
temporal-order-66 repository.

Agent B side (Python, embedded in the technical specification file):
the Temporal signal handler TaskWorkflow.inbound_message keeps a
per-conversation ledger of inbound messages (append-only, deduplicated
by message_id) and outbound replies (outbox pattern: a record is created
unsent, transmitted, and marked sent only after the transmission
activity completes).

Agent A side (TypeScript): the InitiatorWorkflow drives a fixed 3-turn
conversation, records sent turns and received replies, and the Express
server forwards incoming A2A replies to the workflow as signals.
-/

namespace Order66

/-- Substring occurrence test over the characters of a string; embeds the
Python membership test used by the crash trigger check. -/
def strContains (s pat : String) : Bool :=
  s.data.tails.any fun t => pat.data.isPrefixOf t

/-- The crash sentinel marker looked for inside message content. -/
def crashSentinel : String := "EXECUTE_ORDER_66"

/-- Crash Trigger predicate: the content check performed by the handler
after the ledger append (Python: the membership test of the sentinel in
the message content). -/
def crashTriggerFires (content : String) : Bool :=
  strContains content crashSentinel

/-- One entry of the append-only inbound ledger, as stored by the
handler: id, content, reply address, and the workflow logical timestamp. -/
structure InboundMessage where
  message_id : String
  content : String
  reply_to : String
  timestamp : Nat
deriving Repr, DecidableEq

/-- One entry of the outbox: reply id, recipient URL, and the sent flag. -/
structure OutboundMessage where
  message_id : String
  recipient_url : String
  sent : Bool
deriving Repr, DecidableEq

/-- The TaskWorkflowState dataclass of Agent B's workflow. -/
structure TaskWorkflowState where
  task_id : String
  inbound_messages : List InboundMessage
  outbound_messages : List OutboundMessage
deriving Repr, DecidableEq

/-- Deterministic derivation of the reply identifier from the triggering
message identifier (Python f-string building the reply id from the
message id with the fixed "r-" front marker). -/
def deriveReplyId (message_id : String) : String := "r-" ++ message_id

/-- Payload of one delivery of the inbound_message signal. -/
structure SignalInput where
  message_id : String
  content : String
  reply_to : String
deriving Repr, DecidableEq

/-- Outcomes supplied by the durable-execution substrate for the
activities one handler execution may invoke: the workflow logical clock
value, the process_message result, and whether the send_a2a_message
activity completes successfully. -/
structure ActivityEnv where
  now : Nat
  processResult : String
  sendSucceeds : Bool
deriving Repr, DecidableEq

/-- Observable operations of one handler execution, in program order:
the ledger append, and the three activity invocations. -/
inductive WorkflowEvent where
  | appendInbound (message_id : String)
  | crashActivity
  | processActivity (message_id : String)
  | sendActivity (reply_id : String)
deriving Repr, DecidableEq

/-- Mark the first outbox record with the given id as sent (the Python
code mutates the record found by next(...)). -/
def markSent : List OutboundMessage → String → List OutboundMessage
  | [], _ => []
  | m :: rest, reply_id =>
      if m.message_id == reply_id then { m with sent := true } :: rest
      else m :: markSent rest reply_id

/-- The freshly created outbox record: sent = False until a transmission
is confirmed. -/
def pendingRecord (reply_id recipient_url : String) : OutboundMessage :=
  { message_id := reply_id, recipient_url := recipient_url, sent := false }

/-- Idempotent creation of the outbox record: if no record with the
reply id exists, append one with sent = False; otherwise leave the state
unchanged (the "check outbox" block of the handler). -/
def upsertOutbox (st : TaskWorkflowState) (reply_id recipient_url : String) :
    TaskWorkflowState :=
  if st.outbound_messages.any (fun m => m.message_id == reply_id) then st
  else
    { st with
      outbound_messages := st.outbound_messages ++ [pendingRecord reply_id recipient_url] }

/-- The outbox-dispatch tail of the handler: upsert the outbound record,
look it up, return at once if it is already sent, otherwise invoke the
send activity and mark the record sent only when that activity
completes. Returns the new state, the activity events, and the number of
successful transmissions (send invocations that complete and mark the
record sent). -/
def dispatch (st : TaskWorkflowState) (message_id reply_to : String)
    (sendSucceeds : Bool) : TaskWorkflowState × List WorkflowEvent × Nat :=
  let reply_id := deriveReplyId message_id
  let st1 := upsertOutbox st reply_id reply_to
  match st1.outbound_messages.find? (fun m => m.message_id == reply_id) with
  | some o =>
      if o.sent then (st1, [], 0)
      else if sendSucceeds then
        ({ st1 with outbound_messages := markSent st1.outbound_messages reply_id },
         [WorkflowEvent.sendActivity reply_id], 1)
      else (st1, [WorkflowEvent.sendActivity reply_id], 0)
  | none => (st1, [], 0)

/-- The inbound_message signal handler of TaskWorkflow: duplicate check,
ledger append, crash-trigger evaluation, processing activity, then the
outbox dispatch. A duplicate message id returns immediately, recording
nothing and invoking no activity. -/
def inbound_message (st : TaskWorkflowState) (msg : SignalInput)
    (env : ActivityEnv) : TaskWorkflowState × List WorkflowEvent × Nat :=
  if st.inbound_messages.any (fun m => m.message_id == msg.message_id) then
    (st, [], 0)
  else
    let st1 : TaskWorkflowState :=
      { st with
        inbound_messages := st.inbound_messages ++
          [{ message_id := msg.message_id, content := msg.content,
             reply_to := msg.reply_to, timestamp := env.now }] }
    let crashEvents :=
      if crashTriggerFires msg.content then [WorkflowEvent.crashActivity] else []
    let d := dispatch st1 msg.message_id msg.reply_to env.sendSucceeds
    (d.1,
     WorkflowEvent.appendInbound msg.message_id ::
       (crashEvents ++ (WorkflowEvent.processActivity msg.message_id :: d.2.1)),
     d.2.2)

/-- Deliver a sequence of inbound_message signals, threading the state
and accumulating the events and successful transmissions. -/
def deliverMany (st : TaskWorkflowState) :
    List (SignalInput × ActivityEnv) → TaskWorkflowState × List WorkflowEvent × Nat
  | [] => (st, [], 0)
  | (m, e) :: rest =>
      let d := inbound_message st m e
      let r := deliverMany d.1 rest
      (r.1, d.2.1 ++ r.2.1, d.2.2 + r.2.2)

/-- Execute the outbox-dispatch sequence repeatedly (simulating replay
after a crash), one transmission outcome per invocation; returns the
final state and the total number of successful transmissions. -/
def dispatchMany (st : TaskWorkflowState) (message_id reply_to : String) :
    List Bool → TaskWorkflowState × Nat
  | [] => (st, 0)
  | ok :: rest =>
      let d := dispatch st message_id reply_to ok
      let r := dispatchMany d.1 message_id reply_to rest
      (r.1, d.2.2 + r.2)

/-- Number of inbound ledger records carrying the given message id. -/
def inboundCount (st : TaskWorkflowState) (message_id : String) : Nat :=
  (st.inbound_messages.filter (fun m => m.message_id == message_id)).length

/-- Number of outbox records carrying the given reply id. -/
def outboundCount (st : TaskWorkflowState) (reply_id : String) : Nat :=
  (st.outbound_messages.filter (fun m => m.message_id == reply_id)).length

/-- The sent flag of the first outbox record with the given reply id
(false when no such record exists). -/
def replySent (st : TaskWorkflowState) (reply_id : String) : Bool :=
  match st.outbound_messages.find? (fun m => m.message_id == reply_id) with
  | some o => o.sent
  | none => false

/-- One entry of sentMessages in the InitiatorWorkflowState. -/
structure SentMessage where
  messageId : String
  content : String
  timestamp : Nat
deriving Repr, DecidableEq

/-- One entry of receivedReplies in the InitiatorWorkflowState. -/
structure ReceivedReply where
  messageId : String
  content : String
  timestamp : Nat
deriving Repr, DecidableEq

/-- State of the InitiatorWorkflow: the InitiatorWorkflowState record
(taskId, sentMessages, receivedReplies) together with the control-flow
position (the loop counter nextTurn, starting at 1, and the done flag
set when the workflow returns) and a history of the sendA2AMessage
activity invocations made so far (attempts carries the messageId and
content of each invocation; it is not a workflow state variable, only a
record of the activity calls for stating theorems about them). -/
structure InitiatorState where
  taskId : String
  sentMessages : List SentMessage
  receivedReplies : List ReceivedReply
  nextTurn : Nat
  done : Bool
  attempts : List (String × String)
deriving Repr, DecidableEq

/-- State at workflow start: empty ledgers, loop counter at turn 1. -/
def initialInitiatorState (taskId : String) : InitiatorState :=
  { taskId := taskId, sentMessages := [], receivedReplies := [],
    nextTurn := 1, done := false, attempts := [] }

/-- messageId of turn i (the template string built from the loop index). -/
def turnMessageId (i : Nat) : String := "m" ++ toString i

/-- Content of turn i: a pure function of the loop index alone, exactly
the if/else chain of the workflow body; turn 3 carries the crash
sentinel. -/
def turnContent (i : Nat) : String :=
  if i == 1 then "The time is near, Commander."
  else if i == 2 then "Soon, the Jedi will fall."
  else "[[TRIGGER:EXECUTE_ORDER_66]]"

/-- Events the InitiatorWorkflow can experience while running: one loop
iteration (with the substrate-supplied transmission outcome of the
sendA2AMessage activity and the logical-clock value recorded with the
turn), delivery of a replyReceived signal (with the logical-clock value
recorded with the reply), and the tail of the workflow (the bounded
grace sleep followed by the return). -/
inductive DriverEvent where
  | turn (sendOk : Bool) (time : Nat)
  | reply (messageId content : String) (time : Nat)
  | finish
deriving Repr, DecidableEq

/-- One step of the InitiatorWorkflow.

turn: one iteration of the 3-iteration for loop. The send activity is
invoked (recorded in attempts); if it completes, the turn is appended to
sentMessages with the logical timestamp; if it throws (after the
substrate exhausts its retries), the catch block skips the append and
the loop proceeds, so only the loop counter advances. Disabled once the
loop is over or the workflow has returned.

reply: the replyReceived signal handler, which unconditionally appends
the incoming reply to receivedReplies; active the whole time the
workflow runs.

finish: after the third iteration the workflow performs one bounded
grace sleep and returns its state. -/
def driverStep (s : InitiatorState) (e : DriverEvent) : InitiatorState :=
  match e with
  | .turn sendOk time =>
      if s.done ∨ 3 < s.nextTurn then s
      else if sendOk then
        { s with
          sentMessages := s.sentMessages ++
            [{ messageId := turnMessageId s.nextTurn,
               content := turnContent s.nextTurn, timestamp := time }],
          nextTurn := s.nextTurn + 1,
          attempts := s.attempts ++
            [(turnMessageId s.nextTurn, turnContent s.nextTurn)] }
      else
        { s with
          nextTurn := s.nextTurn + 1,
          attempts := s.attempts ++
            [(turnMessageId s.nextTurn, turnContent s.nextTurn)] }
  | .reply messageId content time =>
      if s.done then s
      else
        { s with
          receivedReplies := s.receivedReplies ++
            [{ messageId := messageId, content := content, timestamp := time }] }
  | .finish =>
      if s.done ∨ s.nextTurn ≤ 3 then s else { s with done := true }

/-- Run the InitiatorWorkflow from its initial state through a sequence
of events. -/
def driverRun (taskId : String) (events : List DriverEvent) : InitiatorState :=
  events.foldl driverStep (initialInitiatorState taskId)

/-- The states the InitiatorWorkflow can reach from its start, under any
interleaving of loop iterations, reply signals, and the final return. -/
inductive ReachableInitiator (taskId : String) : InitiatorState → Prop where
  | init : ReachableInitiator taskId (initialInitiatorState taskId)
  | step (s : InitiatorState) (e : DriverEvent) :
      ReachableInitiator taskId s → ReachableInitiator taskId (driverStep s e)

/-- A complete execution of the workflow body: the three loop iterations
in order (each with its transmission outcome and logical time), then the
grace wait and the return. Reply signals are omitted here; they commute
with the loop and are covered by the reachable-state development. -/
def initiatorWorkflowRun (taskId : String) (ok1 ok2 ok3 : Bool)
    (n1 n2 n3 : Nat) : InitiatorState :=
  driverRun taskId
    [DriverEvent.turn ok1 n1, DriverEvent.turn ok2 n2,
     DriverEvent.turn ok3 n3, DriverEvent.finish]

/-- Body of the POST /start-task request: the taskId field and the turns
field, each possibly absent. -/
structure StartTaskRequest where
  taskId : Option String
  turns : Option Nat
deriving Repr, DecidableEq

/-- The workflow start call issued by the demo driver: the workflow id
and the argument list handed to the InitiatorWorkflow. -/
structure WorkflowStartCall where
  workflowId : String
  args : List String
deriving Repr, DecidableEq

/-- The POST /start-task handler of the demo driver: destructures taskId
and turns (turns defaulting to 3), rejects a missing or empty taskId
with HTTP 400, and otherwise starts the InitiatorWorkflow with the
arguments [taskId, agentBUrl, agentAUrl]. The turns value is bound but
never used: it does not reach the workflow. -/
def startTaskHandler (req : StartTaskRequest) (agentBUrl agentAUrl : String) :
    Except Nat WorkflowStartCall :=
  match req.taskId with
  | none => Except.error 400
  | some tid =>
      if tid = "" then Except.error 400
      else
        Except.ok
          { workflowId := "initiator-" ++ tid, args := [tid, agentBUrl, agentAUrl] }

/-- Outcome of signaling the initiator workflow with a reply: the signal
is delivered, the workflow does not exist (WorkflowNotFoundError), or
the signal fails for any other reason. -/
inductive SignalOutcome where
  | delivered
  | notFound
  | failure
deriving Repr, DecidableEq

/-- The HTTP response produced by Agent A's POST /a2a/message/send
handler: status code, the result.status string of a JSON-RPC success,
and the numeric code of a JSON-RPC error. -/
structure A2AHttpResponse where
  httpStatus : Nat
  resultStatus : Option String
  errorCode : Option Int
deriving Repr, DecidableEq

/-- JavaScript truthiness of an optional string field: present and
non-empty. -/
def truthy (field : Option String) : Bool :=
  match field with
  | none => false
  | some s => !(s == "")

/-- Agent A's POST /a2a/message/send handler: validates the three
required params (missing or empty fields give HTTP 400 with JSON-RPC
error code -32602), then signals the initiator workflow. A
WorkflowNotFoundError is caught, logged as a warning, and the handler
still returns the HTTP 200 JSON-RPC success with result.status
"received"; any other signaling failure is rethrown and caught by the
outer handler, producing HTTP 500 with JSON-RPC error code -32603. -/
def handleA2AReply (taskId messageId content : Option String)
    (sig : SignalOutcome) : A2AHttpResponse :=
  if !(truthy taskId) || !(truthy messageId) || !(truthy content) then
    { httpStatus := 400, resultStatus := none, errorCode := some (-32602) }
  else
    match sig with
    | .delivered =>
        { httpStatus := 200, resultStatus := some "received", errorCode := none }
    | .notFound =>
        { httpStatus := 200, resultStatus := some "received", errorCode := none }
    | .failure =>
        { httpStatus := 500, resultStatus := none, errorCode := some (-32603) }

/-- A Temporal activity retry policy as configured through
proxyActivities: attempt cap, backoff parameters, and the list of
declared non-retryable error types. -/
structure RetryPolicyConfig where
  maximumAttempts : Nat
  initialIntervalMs : Nat
  backoffCoefficient : Nat
  maximumIntervalMs : Nat
  nonRetryableErrorTypes : List String
deriving Repr, DecidableEq

/-- The retry configuration the InitiatorWorkflow passes to
proxyActivities for sendA2AMessage: maximumAttempts 3, initialInterval
1s, backoffCoefficient 2, maximumInterval 10s. The configuration
declares no nonRetryableErrorTypes, so the empty default applies and
every failure type is retryable. -/
def sendRetryConfig : RetryPolicyConfig :=
  { maximumAttempts := 3, initialIntervalMs := 1000, backoffCoefficient := 2,
    maximumIntervalMs := 10000, nonRetryableErrorTypes := [] }

/-- The declared type of the error sendA2AMessage throws when the HTTP
response is not ok: a plain Error (type name "Error") whatever the HTTP
status is, 401 and 400 included. -/
def sendA2AErrorType (httpStatus : Nat) : String :=
  let _ := httpStatus
  "Error"

/-- Modelled from the spec: the durable-execution substrate's retry
scheduling, which the repository consumes rather than implements. A
failed activity whose declared error type is listed in
nonRetryableErrorTypes is not retried (one attempt); any other failure
is retried up to maximumAttempts. This gives the number of attempts made
when every attempt fails with the given error type. -/
def attemptsWhenAlwaysFailing (p : RetryPolicyConfig) (errType : String) : Nat :=
  if p.nonRetryableErrorTypes.contains errType then 1 else p.maximumAttempts

/-- Modelled from the spec: the substrate's backoff schedule for the
n-th retry delay (n counted from 1), the initial interval grown by the
backoff coefficient and capped at the maximum interval. -/
def retryDelayMs (p : RetryPolicyConfig) (n : Nat) : Nat :=
  min p.maximumIntervalMs (p.initialIntervalMs * p.backoffCoefficient ^ (n - 1))

/-- Inductive invariant of the InitiatorWorkflow: the loop counter stays
between 1 and 4, at most one turn is recorded per completed iteration,
and every recorded turn was built by the pure content function at some
loop index between 1 and 3. -/
def InitiatorInv (s : InitiatorState) : Prop :=
  1 ≤ s.nextTurn ∧ s.nextTurn ≤ 4 ∧ s.sentMessages.length + 1 ≤ s.nextTurn ∧
  ∀ m ∈ s.sentMessages, ∃ i, 1 ≤ i ∧ i ≤ 3 ∧
    m.messageId = turnMessageId i ∧ m.content = turnContent i

/-- Empty conversation ledger used to evaluate the theorems on concrete
inputs. -/
def exampleState : TaskWorkflowState :=
  { task_id := "t1", inbound_messages := [], outbound_messages := [] }

/-- A first delivery of message m3 carrying the crash sentinel. -/
def exampleDelivery1 : SignalInput × ActivityEnv :=
  ({ message_id := "m3", content := "[[TRIGGER:EXECUTE_ORDER_66]]",
     reply_to := "http://agent-a:8081/a2a/message/send" },
   { now := 100, processResult := "It will be done, my lord.", sendSucceeds := true })

/-- A redelivery of m3 with different content (content is not part of
the idempotency key). -/
def exampleDelivery2 : SignalInput × ActivityEnv :=
  ({ message_id := "m3", content := "retry with changed content",
     reply_to := "http://elsewhere:9999/a2a/message/send" },
   { now := 250, processResult := "another reply body", sendSucceeds := false })

/-- The reachable state obtained by delivering a reply signal before any
turn has been sent: the replyReceived handler records it
unconditionally. -/
def lateReplyState : InitiatorState :=
  driverStep (initialInitiatorState "t1") (DriverEvent.reply "r-m9" "unsolicited" 5)

@[simp]
lemma pendingRecord_message_id (reply_id recipient_url : String) :
    (pendingRecord reply_id recipient_url).message_id = reply_id := rfl

@[simp]
lemma pendingRecord_sent (reply_id recipient_url : String) :
    (pendingRecord reply_id recipient_url).sent = false := rfl

lemma dispatchMany_cons (st : TaskWorkflowState) (message_id reply_to : String)
    (ok : Bool) (rest : List Bool) :
    dispatchMany st message_id reply_to (ok :: rest)
      = ((dispatchMany (dispatch st message_id reply_to ok).1 message_id reply_to rest).1,
         (dispatch st message_id reply_to ok).2.2
           + (dispatchMany (dispatch st message_id reply_to ok).1 message_id reply_to rest).2) :=
  rfl

lemma deliverMany_cons (st : TaskWorkflowState) (p : SignalInput × ActivityEnv)
    (rest : List (SignalInput × ActivityEnv)) :
    deliverMany st (p :: rest)
      = ((deliverMany (inbound_message st p.1 p.2).1 rest).1,
         (inbound_message st p.1 p.2).2.1
           ++ (deliverMany (inbound_message st p.1 p.2).1 rest).2.1,
         (inbound_message st p.1 p.2).2.2
           + (deliverMany (inbound_message st p.1 p.2).1 rest).2.2) := by
  cases p
  rfl

lemma upsertOutbox_inbound (st : TaskWorkflowState) (reply_id recipient_url : String) :
    (upsertOutbox st reply_id recipient_url).inbound_messages = st.inbound_messages := by
  unfold upsertOutbox
  split <;> rfl

lemma markSent_any (l : List OutboundMessage) (reply_id p : String) :
    ((markSent l reply_id).any fun m => m.message_id == p)
      = (l.any fun m => m.message_id == p) := by
  induction l with
  | nil => rfl
  | cons m rest ih =>
      unfold markSent
      by_cases h : (m.message_id == reply_id) = true
      · simp [h]
      · simp [h, ih]

lemma markSent_find (l : List OutboundMessage) (reply_id : String) :
    (markSent l reply_id).find? (fun m => m.message_id == reply_id)
      = (l.find? (fun m => m.message_id == reply_id)).map
          (fun m => { m with sent := true }) := by
  induction l with
  | nil => rfl
  | cons m rest ih =>
      by_cases h : (m.message_id == reply_id) = true
      · have h1 : List.find? (fun x => x.message_id == reply_id)
            (({ m with sent := true } : OutboundMessage) :: rest)
            = some { m with sent := true } :=
          List.find?_cons_of_pos rest (by simpa using h)
        have h2 : List.find? (fun x => x.message_id == reply_id) (m :: rest) = some m :=
          List.find?_cons_of_pos rest h
        unfold markSent
        rw [if_pos h, h1, h2]
        rfl
      · have h1 : List.find? (fun x => x.message_id == reply_id)
            (m :: markSent rest reply_id)
            = List.find? (fun x => x.message_id == reply_id) (markSent rest reply_id) :=
          List.find?_cons_of_neg _ h
        have h2 : List.find? (fun x => x.message_id == reply_id) (m :: rest)
            = List.find? (fun x => x.message_id == reply_id) rest :=
          List.find?_cons_of_neg _ h
        unfold markSent
        rw [if_neg h, h1, h2, ih]

lemma markSent_count (l : List OutboundMessage) (reply_id p : String) :
    ((markSent l reply_id).filter fun m => m.message_id == p).length
      = (l.filter fun m => m.message_id == p).length := by
  induction l with
  | nil => rfl
  | cons m rest ih =>
      unfold markSent
      by_cases h : (m.message_id == reply_id) = true
      · by_cases h2 : (m.message_id == p) = true <;>
          simp [h, h2, List.filter_cons]
      · by_cases h2 : (m.message_id == p) = true <;>
          simp [h, h2, List.filter_cons, ih]

lemma replySent_eq_true_iff (st : TaskWorkflowState) (reply_id : String) :
    replySent st reply_id = true ↔
      ∃ o, st.outbound_messages.find? (fun m => m.message_id == reply_id) = some o
        ∧ o.sent = true := by
  unfold replySent
  cases hf : st.outbound_messages.find? (fun m => m.message_id == reply_id) with
  | none => simp
  | some o => simp
lemma any_of_find?_some (l : List OutboundMessage) (reply_id : String)
    (o : OutboundMessage)
    (hf : l.find? (fun m => m.message_id == reply_id) = some o) :
    (l.any fun m => m.message_id == reply_id) = true := by
  rw [List.any_eq_true]
  refine ⟨o, List.mem_of_find?_eq_some hf, ?_⟩
  simpa using List.find?_some hf

lemma dispatch_inbound (st : TaskWorkflowState) (message_id reply_to : String)
    (ok : Bool) :
    (dispatch st message_id reply_to ok).1.inbound_messages = st.inbound_messages := by
  unfold dispatch
  cases hf : (upsertOutbox st (deriveReplyId message_id) reply_to).outbound_messages.find?
      (fun m => m.message_id == deriveReplyId message_id) with
  | none => simp [hf, upsertOutbox_inbound]
  | some o =>
      by_cases hs : o.sent = true
      · simp [hf, hs, upsertOutbox_inbound]
      · cases ok <;> simp [hf, hs, upsertOutbox_inbound]

lemma upsertOutbox_any (st : TaskWorkflowState) (reply_id recipient_url : String) :
    ((upsertOutbox st reply_id recipient_url).outbound_messages.any
      fun m => m.message_id == reply_id) = true := by
  unfold upsertOutbox
  split
  · next h => exact h
  · simp [List.any_append]

lemma dispatch_any (st : TaskWorkflowState) (message_id reply_to : String) (ok : Bool) :
    ((dispatch st message_id reply_to ok).1.outbound_messages.any
      fun m => m.message_id == deriveReplyId message_id) = true := by
  unfold dispatch
  cases hf : (upsertOutbox st (deriveReplyId message_id) reply_to).outbound_messages.find?
      (fun m => m.message_id == deriveReplyId message_id) with
  | none => simpa [hf] using upsertOutbox_any st (deriveReplyId message_id) reply_to
  | some o =>
      by_cases hs : o.sent = true
      · simpa [hf, hs] using upsertOutbox_any st (deriveReplyId message_id) reply_to
      · cases ok <;>
          simpa [hf, hs, markSent_any] using
            upsertOutbox_any st (deriveReplyId message_id) reply_to

lemma dispatch_of_sent (st : TaskWorkflowState) (message_id reply_to : String)
    (ok : Bool) (h : replySent st (deriveReplyId message_id) = true) :
    dispatch st message_id reply_to ok = (st, [], 0) := by
  obtain ⟨o, hf, hs⟩ := (replySent_eq_true_iff st _).mp h
  have hany := any_of_find?_some st.outbound_messages (deriveReplyId message_id) o hf
  have hup : upsertOutbox st (deriveReplyId message_id) reply_to = st := by
    unfold upsertOutbox
    rw [if_pos hany]
  unfold dispatch
  simp [hup, hf, hs]
lemma dispatch_of_not_sent (st : TaskWorkflowState) (message_id reply_to : String)
    (ok : Bool) (h : replySent st (deriveReplyId message_id) = false) :
    (dispatch st message_id reply_to ok).2.2 = (if ok then 1 else 0)
    ∧ replySent (dispatch st message_id reply_to ok).1 (deriveReplyId message_id) = ok := by
  cases hf : st.outbound_messages.find?
      (fun m => m.message_id == deriveReplyId message_id) with
  | some o =>
      have hs : o.sent = false := by
        unfold replySent at h
        rw [hf] at h
        exact h
      have hany := any_of_find?_some st.outbound_messages (deriveReplyId message_id) o hf
      have hup : upsertOutbox st (deriveReplyId message_id) reply_to = st := by
        unfold upsertOutbox
        rw [if_pos hany]
      cases ok with
      | false =>
          refine ⟨?_, ?_⟩
          · unfold dispatch
            simp [hup, hf, hs]
          · unfold dispatch
            simp only [hup, hf]
            simp only [hs]
            simpa using h
      | true =>
          refine ⟨?_, ?_⟩
          · unfold dispatch
            simp [hup, hf, hs]
          · unfold dispatch
            simp only [hup, hf]
            simp only [hs]
            unfold replySent
            simp [markSent_find, hf]
  | none =>
      have hany : (st.outbound_messages.any
          fun m => m.message_id == deriveReplyId message_id) = false := by
        rw [List.any_eq_false]
        intro x hx hpx
        have hiss : (st.outbound_messages.find?
            (fun m => m.message_id == deriveReplyId message_id)).isSome = true :=
          List.find?_isSome.mpr ⟨x, hx, hpx⟩
        rw [hf] at hiss
        simp at hiss
      have hup : upsertOutbox st (deriveReplyId message_id) reply_to
          = { st with outbound_messages := st.outbound_messages
                ++ [pendingRecord (deriveReplyId message_id) reply_to] } := by
        unfold upsertOutbox
        rw [if_neg (by simp [hany])]
      have hfind1 : (st.outbound_messages
            ++ [pendingRecord (deriveReplyId message_id) reply_to]).find?
            (fun m => m.message_id == deriveReplyId message_id)
          = some (pendingRecord (deriveReplyId message_id) reply_to) := by
        rw [List.find?_append, hf]
        simp [List.find?_cons]
      cases ok with
      | false =>
          refine ⟨?_, ?_⟩
          · unfold dispatch
            simp [hup, hfind1]
          · unfold dispatch
            simp only [hup, hfind1]
            simp only [pendingRecord_sent]
            unfold replySent
            simp [hfind1]
      | true =>
          refine ⟨?_, ?_⟩
          · unfold dispatch
            simp [hup, hfind1]
          · unfold dispatch
            simp only [hup, hfind1]
            simp only [pendingRecord_sent]
            unfold replySent
            simp [markSent_find, hfind1]
lemma dispatchMany_bound (message_id reply_to : String) (outcomes : List Bool) :
    ∀ st : TaskWorkflowState,
      (dispatchMany st message_id reply_to outcomes).2
        + (if replySent st (deriveReplyId message_id) = true then 1 else 0) ≤ 1 := by
  induction outcomes with
  | nil =>
      intro st
      unfold dispatchMany
      split <;> simp
  | cons ok rest ih =>
      intro st
      rw [dispatchMany_cons]
      by_cases h : replySent st (deriveReplyId message_id) = true
      · have h2 := ih st
        rw [if_pos h] at h2 ⊢
        rw [dispatch_of_sent st message_id reply_to ok h]
        simpa using h2
      · have hF : replySent st (deriveReplyId message_id) = false := by
          cases hr : replySent st (deriveReplyId message_id)
          · rfl
          · exact absurd hr h
        obtain ⟨hn, hflag⟩ := dispatch_of_not_sent st message_id reply_to ok hF
        have h2 := ih (dispatch st message_id reply_to ok).1
        rw [hflag] at h2
        rw [if_neg h]
        cases ok with
        | false =>
            simp only [Bool.false_eq_true, if_false] at h2
            simp only [if_neg (Bool.false_ne_true)] at hn
            omega
        | true =>
            simp only [if_pos rfl] at h2 hn
            omega

lemma outboundCount_upsert (st : TaskWorkflowState) (reply_id recipient_url : String) :
    outboundCount (upsertOutbox st reply_id recipient_url) reply_id
      = max 1 (outboundCount st reply_id) := by
  unfold upsertOutbox outboundCount
  split
  · next h =>
      obtain ⟨x, hx, hpx⟩ := List.any_eq_true.mp h
      have hmem : x ∈ st.outbound_messages.filter (fun m => m.message_id == reply_id) := by
        rw [List.mem_filter]
        exact ⟨hx, hpx⟩
      have hpos : 0 < (st.outbound_messages.filter
          (fun m => m.message_id == reply_id)).length :=
        List.length_pos.mpr (List.ne_nil_of_mem hmem)
      omega
  · next h =>
      have hfalse : (st.outbound_messages.any
          fun m => m.message_id == reply_id) = false := by
        cases hr : st.outbound_messages.any fun m => m.message_id == reply_id
        · rfl
        · exact absurd hr h
      have h0 : st.outbound_messages.filter (fun m => m.message_id == reply_id) = [] := by
        rw [List.filter_eq_nil_iff]
        exact List.any_eq_false.mp hfalse
      simp [List.filter_append, h0, List.filter_cons]

lemma dispatch_outboundCount (st : TaskWorkflowState) (message_id reply_to : String)
    (ok : Bool) :
    outboundCount (dispatch st message_id reply_to ok).1 (deriveReplyId message_id)
      = max 1 (outboundCount st (deriveReplyId message_id)) := by
  unfold dispatch
  cases hf : (upsertOutbox st (deriveReplyId message_id) reply_to).outbound_messages.find?
      (fun m => m.message_id == deriveReplyId message_id) with
  | none => simp [hf, outboundCount_upsert]
  | some o =>
      by_cases hs : o.sent = true
      · simp [hf, hs, outboundCount_upsert]
      · cases ok with
        | false => simp [hf, hs, outboundCount_upsert]
        | true =>
            simp only [hf, hs]
            have hm : outboundCount
                { upsertOutbox st (deriveReplyId message_id) reply_to with
                  outbound_messages := markSent
                    (upsertOutbox st (deriveReplyId message_id) reply_to).outbound_messages
                    (deriveReplyId message_id) } (deriveReplyId message_id)
                = outboundCount (upsertOutbox st (deriveReplyId message_id) reply_to)
                    (deriveReplyId message_id) := by
              unfold outboundCount
              exact markSent_count _ _ _
            simp only [Bool.false_eq_true, if_false]
            simpa [hm] using outboundCount_upsert st (deriveReplyId message_id) reply_to

lemma dispatchMany_outboundCount (message_id reply_to : String) (outcomes : List Bool) :
    ∀ st : TaskWorkflowState,
      outboundCount (dispatchMany st message_id reply_to outcomes).1
          (deriveReplyId message_id)
        ≤ max 1 (outboundCount st (deriveReplyId message_id)) := by
  induction outcomes with
  | nil =>
      intro st
      unfold dispatchMany
      exact Nat.le_max_right _ _
  | cons ok rest ih =>
      intro st
      rw [dispatchMany_cons]
      have h1 := ih (dispatch st message_id reply_to ok).1
      rw [dispatch_outboundCount] at h1
      have h2 : max 1 (max 1 (outboundCount st (deriveReplyId message_id)))
          = max 1 (outboundCount st (deriveReplyId message_id)) := by omega
      rw [h2] at h1
      exact h1
lemma inbound_message_duplicate (st : TaskWorkflowState) (msg : SignalInput)
    (env : ActivityEnv)
    (h : (st.inbound_messages.any fun m => m.message_id == msg.message_id) = true) :
    inbound_message st msg env = (st, [], 0) := by
  unfold inbound_message
  rw [if_pos h]

lemma inbound_message_fresh_inbound (st : TaskWorkflowState) (msg : SignalInput)
    (env : ActivityEnv)
    (h : (st.inbound_messages.any fun m => m.message_id == msg.message_id) = false) :
    (inbound_message st msg env).1.inbound_messages
      = st.inbound_messages ++
          [{ message_id := msg.message_id, content := msg.content,
             reply_to := msg.reply_to, timestamp := env.now }] := by
  unfold inbound_message
  rw [if_neg (by simp [h])]
  simp only []
  rw [dispatch_inbound]

lemma inbound_message_any (st : TaskWorkflowState) (msg : SignalInput)
    (env : ActivityEnv) :
    ((inbound_message st msg env).1.inbound_messages.any
      fun m => m.message_id == msg.message_id) = true := by
  cases h : st.inbound_messages.any fun m => m.message_id == msg.message_id with
  | true =>
      rw [inbound_message_duplicate st msg env h]
      exact h
  | false =>
      rw [inbound_message_fresh_inbound st msg env h]
      simp [List.any_append]

lemma deliverMany_noop (mid : String) (deliveries : List (SignalInput × ActivityEnv))
    (hall : ∀ p ∈ deliveries, p.1.message_id = mid) :
    ∀ st : TaskWorkflowState,
      (st.inbound_messages.any fun m => m.message_id == mid) = true →
      deliverMany st deliveries = (st, [], 0) := by
  induction deliveries with
  | nil =>
      intro st _
      rfl
  | cons p rest ih =>
      intro st hany
      have hid : p.1.message_id = mid := hall p (List.mem_cons_self p rest)
      have hdup : (st.inbound_messages.any
          fun m => m.message_id == p.1.message_id) = true := by
        rw [hid]
        exact hany
      rw [deliverMany_cons, inbound_message_duplicate st p.1 p.2 hdup]
      have hrest := ih (fun q hq => hall q (List.mem_cons_of_mem p hq)) st hany
      simp [hrest]
lemma initiatorInv_init (taskId : String) :
    InitiatorInv (initialInitiatorState taskId) := by
  refine ⟨le_refl 1, by simp [initialInitiatorState], by simp [initialInitiatorState], ?_⟩
  intro m hm
  simp [initialInitiatorState] at hm

lemma initiatorInv_step (s : InitiatorState) (e : DriverEvent)
    (h : InitiatorInv s) : InitiatorInv (driverStep s e) := by
  obtain ⟨h1, h2, h3, h4⟩ := h
  cases e with
  | turn ok time =>
      simp only [driverStep]
      by_cases hg : (s.done = true ∨ 3 < s.nextTurn)
      · rw [if_pos hg]
        exact ⟨h1, h2, h3, h4⟩
      · rw [if_neg hg]
        have hn : s.nextTurn ≤ 3 := by
          rcases Nat.lt_or_ge 3 s.nextTurn with hlt | hge
          · exact absurd (Or.inr hlt) hg
          · exact hge
        cases ok with
        | true =>
            rw [if_pos rfl]
            refine ⟨?_, ?_, ?_, ?_⟩
            · show 1 ≤ s.nextTurn + 1
              omega
            · show s.nextTurn + 1 ≤ 4
              omega
            · show (s.sentMessages ++ [_]).length + 1 ≤ s.nextTurn + 1
              simp only [List.length_append, List.length_singleton]
              omega
            · intro m hm
              rcases List.mem_append.mp hm with hold | hnew
              · exact h4 m hold
              · rcases List.mem_singleton.mp hnew with rfl
                exact ⟨s.nextTurn, h1, hn, rfl, rfl⟩
        | false =>
            rw [if_neg (by simp)]
            refine ⟨?_, ?_, ?_, h4⟩
            · show 1 ≤ s.nextTurn + 1
              omega
            · show s.nextTurn + 1 ≤ 4
              omega
            · show s.sentMessages.length + 1 ≤ s.nextTurn + 1
              omega
  | reply messageId content time =>
      simp only [driverStep]
      by_cases hg : s.done = true
      · rw [if_pos hg]
        exact ⟨h1, h2, h3, h4⟩
      · rw [if_neg hg]
        exact ⟨h1, h2, h3, h4⟩
  | finish =>
      simp only [driverStep]
      by_cases hg : (s.done = true ∨ s.nextTurn ≤ 3)
      · rw [if_pos hg]
        exact ⟨h1, h2, h3, h4⟩
      · rw [if_neg hg]
        exact ⟨h1, h2, h3, h4⟩

lemma reachable_inv (taskId : String) (s : InitiatorState)
    (h : ReachableInitiator taskId s) : InitiatorInv s := by
  induction h with
  | init => exact initiatorInv_init taskId
  | step s e _ ih => exact initiatorInv_step s e ih

lemma driverStep_sent_mono (s : InitiatorState) (e : DriverEvent) :
    s.sentMessages.length ≤ (driverStep s e).sentMessages.length := by
  cases e with
  | turn ok time =>
      simp only [driverStep]
      by_cases hg : (s.done = true ∨ 3 < s.nextTurn)
      · rw [if_pos hg]
      · rw [if_neg hg]
        cases ok with
        | true => simp
        | false => exact le_refl _
  | reply messageId content time =>
      simp only [driverStep]
      by_cases hg : s.done = true
      · rw [if_pos hg]
      · rw [if_neg hg]
  | finish =>
      simp only [driverStep]
      by_cases hg : (s.done = true ∨ s.nextTurn ≤ 3)
      · rw [if_pos hg]
      · rw [if_neg hg]

lemma foldl_reachable (taskId : String) (l : List DriverEvent) :
    ∀ s, ReachableInitiator taskId s →
      ReachableInitiator taskId (l.foldl driverStep s) := by
  induction l with
  | nil =>
      intro s hs
      simpa using hs
  | cons e rest ih =>
      intro s hs
      rw [List.foldl_cons]
      exact ih _ (ReachableInitiator.step s e hs)

lemma driverRun_reachable (taskId : String) (events : List DriverEvent) :
    ReachableInitiator taskId (driverRun taskId events) :=
  foldl_reachable taskId events _ ReachableInitiator.init
/-- C1: delivering the inbound message with id m any number N ≥ 1 of
times, even when later deliveries carry different content, leaves
exactly one InboundRecord with message_id = m in the ledger, and every
delivery after the first is a no-op: the whole batch coincides with the
first delivery alone in final state, recorded events, and
transmissions. -/
theorem c1_idempotent_ingestion (st : TaskWorkflowState) (mid : String)
    (d : SignalInput × ActivityEnv) (rest : List (SignalInput × ActivityEnv))
    (hall : ∀ p ∈ d :: rest, p.1.message_id = mid)
    (hfresh : (st.inbound_messages.any fun m => m.message_id == mid) = false) :
    inboundCount (deliverMany st (d :: rest)).1 mid = 1
    ∧ deliverMany st (d :: rest) = inbound_message st d.1 d.2 := by
  have hid : d.1.message_id = mid := hall d (List.mem_cons_self d rest)
  have hany1 : ((inbound_message st d.1 d.2).1.inbound_messages.any
      fun m => m.message_id == mid) = true := by
    rw [← hid]
    exact inbound_message_any st d.1 d.2
  have hrest := deliverMany_noop mid rest
      (fun q hq => hall q (List.mem_cons_of_mem d hq))
      (inbound_message st d.1 d.2).1 hany1
  constructor
  · rw [deliverMany_cons, hrest]
    show inboundCount (inbound_message st d.1 d.2).1 mid = 1
    unfold inboundCount
    rw [inbound_message_fresh_inbound st d.1 d.2 (by rw [hid]; exact hfresh)]
    have h0 : st.inbound_messages.filter (fun m => m.message_id == mid) = [] := by
      rw [List.filter_eq_nil_iff]
      exact List.any_eq_false.mp hfresh
    rw [List.filter_append, h0]
    simp [List.filter_cons, hid]
  · rw [deliverMany_cons, hrest]
    simp

/-- C1 witness: three deliveries of m3, the later two with different
content, leave exactly one record and equal the first delivery alone. -/
theorem c1_idempotent_ingestion_witness :
    inboundCount (deliverMany exampleState
        [exampleDelivery1, exampleDelivery2, exampleDelivery2]).1 "m3" = 1
    ∧ deliverMany exampleState [exampleDelivery1, exampleDelivery2, exampleDelivery2]
        = inbound_message exampleState exampleDelivery1.1 exampleDelivery1.2 :=
  c1_idempotent_ingestion exampleState "m3" exampleDelivery1
    [exampleDelivery2, exampleDelivery2] (by decide) (by decide)

/-- C2: for every replyId, the number of successful transmissions is at
most 1 however often the dispatch sequence runs; the dispatcher is a
complete no-op once the record is sent (so the sent flag never reverts),
and the upsert leaves at most one record per replyId (at most max 1 of
the initial count). -/
theorem c2_at_most_once_transmission (st : TaskWorkflowState)
    (message_id reply_to : String) (outcomes : List Bool) :
    (dispatchMany st message_id reply_to outcomes).2 ≤ 1
    ∧ (∀ ok, replySent st (deriveReplyId message_id) = true →
        dispatch st message_id reply_to ok = (st, [], 0))
    ∧ (∀ ok, replySent st (deriveReplyId message_id) = true →
        replySent (dispatch st message_id reply_to ok).1 (deriveReplyId message_id) = true)
    ∧ outboundCount (dispatchMany st message_id reply_to outcomes).1
        (deriveReplyId message_id)
      ≤ max 1 (outboundCount st (deriveReplyId message_id)) := by
  refine ⟨?_, ?_, ?_, dispatchMany_outboundCount message_id reply_to outcomes st⟩
  · have h := dispatchMany_bound message_id reply_to outcomes st
    by_cases hs : replySent st (deriveReplyId message_id) = true
    · rw [if_pos hs] at h
      omega
    · rw [if_neg hs] at h
      omega
  · intro ok h
    exact dispatch_of_sent st message_id reply_to ok h
  · intro ok h
    rw [dispatch_of_sent st message_id reply_to ok h]
    exact h

/-- C2 witness: replaying the dispatch sequence three times from the
empty ledger transmits at most once and keeps a single outbox record. -/
theorem c2_at_most_once_transmission_witness :
    (dispatchMany exampleState "m3" "http://agent-a:8081/a2a/message/send"
        [true, true, true]).2 ≤ 1
    ∧ (∀ ok, replySent exampleState (deriveReplyId "m3") = true →
        dispatch exampleState "m3" "http://agent-a:8081/a2a/message/send" ok
          = (exampleState, [], 0))
    ∧ (∀ ok, replySent exampleState (deriveReplyId "m3") = true →
        replySent (dispatch exampleState "m3"
            "http://agent-a:8081/a2a/message/send" ok).1 (deriveReplyId "m3") = true)
    ∧ outboundCount (dispatchMany exampleState "m3"
          "http://agent-a:8081/a2a/message/send" [true, true, true]).1
        (deriveReplyId "m3")
      ≤ max 1 (outboundCount exampleState (deriveReplyId "m3")) :=
  c2_at_most_once_transmission exampleState "m3"
    "http://agent-a:8081/a2a/message/send" [true, true, true]
/-- C3: whenever the crash trigger fires on a fresh message, the ledger
append happens strictly before the crash activity is invoked, and every
processing-activity invocation comes strictly after the crash activity:
the handler's order of operations is duplicate check, append, trigger
evaluation, then processing. -/
theorem c3_persist_before_crash (st : TaskWorkflowState) (msg : SignalInput)
    (env : ActivityEnv)
    (hfresh : (st.inbound_messages.any fun m => m.message_id == msg.message_id) = false)
    (hfires : crashTriggerFires msg.content = true) :
    ∃ k, (inbound_message st msg env).2.1.get? k = some WorkflowEvent.crashActivity
      ∧ (∃ j, j < k ∧ (inbound_message st msg env).2.1.get? j
            = some (WorkflowEvent.appendInbound msg.message_id))
      ∧ ∀ i mid, (inbound_message st msg env).2.1.get? i
            = some (WorkflowEvent.processActivity mid) → k < i := by
  have htr : (inbound_message st msg env).2.1
      = WorkflowEvent.appendInbound msg.message_id :: WorkflowEvent.crashActivity ::
        WorkflowEvent.processActivity msg.message_id ::
        (dispatch
          { st with inbound_messages := st.inbound_messages ++
              [{ message_id := msg.message_id, content := msg.content,
                 reply_to := msg.reply_to, timestamp := env.now }] }
          msg.message_id msg.reply_to env.sendSucceeds).2.1 := by
    unfold inbound_message
    rw [if_neg (by simp [hfresh])]
    simp [hfires]
  refine ⟨1, ?_, ⟨0, Nat.zero_lt_one, ?_⟩, ?_⟩
  · rw [htr]
    rfl
  · rw [htr]
    rfl
  · intro i mid hp
    rw [htr] at hp
    match i with
    | 0 => simp at hp
    | 1 => simp at hp
    | (n + 2) => omega

/-- C3 witness: delivering m3 with the sentinel to the empty ledger puts
the append strictly before the crash activity and the crash activity
strictly before any processing. -/
theorem c3_persist_before_crash_witness :
    ∃ k, (inbound_message exampleState exampleDelivery1.1 exampleDelivery1.2).2.1.get? k
          = some WorkflowEvent.crashActivity
      ∧ (∃ j, j < k ∧ (inbound_message exampleState exampleDelivery1.1
            exampleDelivery1.2).2.1.get? j
            = some (WorkflowEvent.appendInbound exampleDelivery1.1.message_id))
      ∧ ∀ i mid, (inbound_message exampleState exampleDelivery1.1
            exampleDelivery1.2).2.1.get? i
            = some (WorkflowEvent.processActivity mid) → k < i :=
  c3_persist_before_crash exampleState exampleDelivery1.1 exampleDelivery1.2
    (by decide) (by decide)

/-- C4: the reply identifier is the pure function prepending "r-" to the
triggering messageId; after processing a fresh message the outbox holds
a record under exactly that derived id, and message m3 yields reply id
r-m3. -/
theorem c4_reply_id_deterministic (st : TaskWorkflowState) (msg : SignalInput)
    (env : ActivityEnv)
    (hfresh : (st.inbound_messages.any fun m => m.message_id == msg.message_id) = false) :
    ((inbound_message st msg env).1.outbound_messages.any
        fun m => m.message_id == deriveReplyId msg.message_id) = true
    ∧ (∀ mid : String, deriveReplyId mid = "r-" ++ mid)
    ∧ deriveReplyId "m3" = "r-m3" := by
  refine ⟨?_, fun mid => rfl, rfl⟩
  unfold inbound_message
  rw [if_neg (by simp [hfresh])]
  exact dispatch_any _ msg.message_id msg.reply_to env.sendSucceeds

/-- C4 witness: delivering m3 to the empty ledger creates the outbox
record under the derived id r-m3. -/
theorem c4_reply_id_deterministic_witness :
    ((inbound_message exampleState exampleDelivery1.1
        exampleDelivery1.2).1.outbound_messages.any
        fun m => m.message_id == deriveReplyId exampleDelivery1.1.message_id) = true
    ∧ (∀ mid : String, deriveReplyId mid = "r-" ++ mid)
    ∧ deriveReplyId "m3" = "r-m3" :=
  c4_reply_id_deterministic exampleState exampleDelivery1.1 exampleDelivery1.2
    (by decide)
/-- C5 (amended): in every reachable state of the InitiatorWorkflow the
sentMessages length is bounded by the fixed turn count 3 and never
decreases under any step. (The bound is 3 regardless of the start
request, and no correspondence between receivedReplies and sentMessages
holds; see the counterexample.) -/
theorem c5_driver_monotonicity (taskId : String) (s : InitiatorState)
    (h : ReachableInitiator taskId s) :
    s.sentMessages.length ≤ 3
    ∧ ∀ e, s.sentMessages.length ≤ (driverStep s e).sentMessages.length := by
  obtain ⟨h1, h2, h3, _⟩ := reachable_inv taskId s h
  exact ⟨by omega, fun e => driverStep_sent_mono s e⟩

/-- C5 witness: the bound holds at the reachable state after one
successful turn. -/
theorem c5_driver_monotonicity_witness :
    (driverStep (initialInitiatorState "t1")
        (DriverEvent.turn true 7)).sentMessages.length ≤ 3 :=
  (c5_driver_monotonicity "t1" _
    (ReachableInitiator.step _ _ ReachableInitiator.init)).1

/-- C5 counterexample: a reachable InitiatorWorkflow state whose
receivedReplies holds an entry while sentMessages is empty, so the entry
corresponds to no sent turn under any correlation (neither equal ids nor
the r- derivation); this refutes the claim that every receivedReplies
entry has a corresponding sentTurns entry. -/
theorem c5_driver_monotonicity_counterexample :
    ReachableInitiator "t1" lateReplyState
    ∧ (lateReplyState.receivedReplies.all fun r =>
        lateReplyState.sentMessages.any fun t =>
          r.messageId == "r-" ++ t.messageId || r.messageId == t.messageId) = false
    ∧ lateReplyState.receivedReplies ≠ []
    ∧ lateReplyState.sentMessages = [] := by
  refine ⟨?_, by decide, by decide, by decide⟩
  show ReachableInitiator "t1"
    (driverStep (initialInitiatorState "t1") (DriverEvent.reply "r-m9" "unsolicited" 5))
  exact ReachableInitiator.step _ _ ReachableInitiator.init

/-- C6: every turn recorded in the driver state was built by the pure
content function of its loop index alone: whatever the environment
(transmission outcomes, reply interleavings, logical-clock values), a
recorded turn's messageId and content are the fixed functions of some
index between 1 and 3, so replay with the same inputs reproduces
identical values. -/
theorem c6_turn_content_pure (taskId : String) (events : List DriverEvent)
    (m : SentMessage) (hm : m ∈ (driverRun taskId events).sentMessages) :
    ∃ i, 1 ≤ i ∧ i ≤ 3 ∧ m.messageId = turnMessageId i ∧ m.content = turnContent i :=
  (reachable_inv taskId _ (driverRun_reachable taskId events)).2.2.2 m hm

/-- C6 witness: the turn recorded by a concrete run is the pure content
function at index 1. -/
theorem c6_turn_content_pure_witness :
    (⟨"m1", "The time is near, Commander.", 10⟩ : SentMessage)
        ∈ (driverRun "t1" [DriverEvent.turn true 10]).sentMessages
    ∧ ∃ i, 1 ≤ i ∧ i ≤ 3
        ∧ (⟨"m1", "The time is near, Commander.", 10⟩ : SentMessage).messageId
            = turnMessageId i
        ∧ (⟨"m1", "The time is near, Commander.", 10⟩ : SentMessage).content
            = turnContent i :=
  ⟨by decide, c6_turn_content_pure "t1" [DriverEvent.turn true 10] _ (by decide)⟩

/-- C9: for every combination of send outcomes, including turns whose
send activity exhausts its retries and throws, the workflow body
completes: the loop runs all three turns (a failed turn leaves no
sentMessages entry but the following turns still execute), the grace
wait and return are reached, and the returned state is the final one. -/
theorem c9_failed_turns_still_complete (taskId : String) (ok1 ok2 ok3 : Bool)
    (n1 n2 n3 : Nat) :
    (initiatorWorkflowRun taskId ok1 ok2 ok3 n1 n2 n3).done = true
    ∧ (initiatorWorkflowRun taskId ok1 ok2 ok3 n1 n2 n3).sentMessages.map
        (fun m => m.messageId)
      = ((if ok1 then [turnMessageId 1] else [])
          ++ (if ok2 then [turnMessageId 2] else [])
          ++ (if ok3 then [turnMessageId 3] else []))
    ∧ (initiatorWorkflowRun taskId ok1 ok2 ok3 n1 n2 n3).attempts.map Prod.fst
      = [turnMessageId 1, turnMessageId 2, turnMessageId 3] := by
  cases ok1 <;> cases ok2 <;> cases ok3 <;>
    simp [initiatorWorkflowRun, driverRun, driverStep, initialInitiatorState]

/-- C10: the turns field of the start request is never consulted: two
requests with the same taskId start the same workflow call whatever
their turns values; a valid request starts the InitiatorWorkflow with
only [taskId, agentBUrl, agentAUrl]; and every run of the workflow
invokes the send activity exactly three times, for m1, m2, m3, the
third carrying the crash sentinel. -/
theorem c10_turn_count_ignored (b a : String) (req1 req2 : StartTaskRequest)
    (h : req1.taskId = req2.taskId) :
    startTaskHandler req1 b a = startTaskHandler req2 b a
    ∧ (∀ tid : String, tid ≠ "" →
        startTaskHandler { taskId := some tid, turns := req1.turns } b a
          = Except.ok { workflowId := "initiator-" ++ tid, args := [tid, b, a] })
    ∧ (∀ taskId : String, ∀ ok1 ok2 ok3 : Bool, ∀ n1 n2 n3 : Nat,
        (initiatorWorkflowRun taskId ok1 ok2 ok3 n1 n2 n3).attempts
          = [(turnMessageId 1, turnContent 1), (turnMessageId 2, turnContent 2),
             (turnMessageId 3, turnContent 3)])
    ∧ turnContent 3 = "[[TRIGGER:EXECUTE_ORDER_66]]" := by
  refine ⟨?_, ?_, ?_, rfl⟩
  · unfold startTaskHandler
    rw [h]
  · intro tid htid
    simp only [startTaskHandler]
    rw [if_neg htid]
  · intro taskId ok1 ok2 ok3 n1 n2 n3
    cases ok1 <;> cases ok2 <;> cases ok3 <;>
      simp [initiatorWorkflowRun, driverRun, driverStep, initialInitiatorState]

/-- C10 witness: two concrete start requests with turns 7 and turns
absent produce the same workflow start call. -/
theorem c10_turn_count_ignored_witness :
    startTaskHandler { taskId := some "demo-1", turns := some 7 }
        "http://agent-b:8080" "http://agent-a:8081"
      = startTaskHandler { taskId := some "demo-1", turns := none }
        "http://agent-b:8080" "http://agent-a:8081" :=
  (c10_turn_count_ignored "http://agent-b:8080" "http://agent-a:8081"
    { taskId := some "demo-1", turns := some 7 }
    { taskId := some "demo-1", turns := none } rfl).1

/-- C7: a valid reply whose task has no workflow (not yet created or
already completed) is dropped with a warning and still answered with the
HTTP 200 JSON-RPC success carrying result.status received; among the
signal outcomes, only a failure other than workflow-not-found yields the
HTTP 500 internal-error response. -/
theorem c7_late_reply_dropped (taskId messageId content : Option String)
    (h1 : truthy taskId = true) (h2 : truthy messageId = true)
    (h3 : truthy content = true) :
    handleA2AReply taskId messageId content SignalOutcome.notFound
      = { httpStatus := 200, resultStatus := some "received", errorCode := none }
    ∧ ∀ sig, ((handleA2AReply taskId messageId content sig).httpStatus = 500
        ↔ sig = SignalOutcome.failure) := by
  constructor
  · unfold handleA2AReply
    simp [h1, h2, h3]
  · intro sig
    cases sig <;> simp [handleA2AReply, h1, h2, h3]

/-- C7 witness: a concrete valid reply for a missing workflow gets the
success response, and only the failure outcome gives 500. -/
theorem c7_late_reply_dropped_witness :
    handleA2AReply (some "t1") (some "r-m3") (some "Roger that.")
        SignalOutcome.notFound
      = { httpStatus := 200, resultStatus := some "received", errorCode := none }
    ∧ ∀ sig, ((handleA2AReply (some "t1") (some "r-m3") (some "Roger that.")
          sig).httpStatus = 500
        ↔ sig = SignalOutcome.failure) :=
  c7_late_reply_dropped (some "t1") (some "r-m3") (some "Roger that.")
    (by decide) (by decide) (by decide)

/-- C8 (behavior of the code at the failing input): the proxyActivities
retry configuration declares no non-retryable error types and
sendA2AMessage throws a plain Error for any HTTP failure, so a send that
keeps failing with HTTP 401 or 400 is attempted 3 times, not once; the
backoff itself is the documented bounded exponential schedule. -/
theorem c8_permanent_failure_is_retried :
    attemptsWhenAlwaysFailing sendRetryConfig (sendA2AErrorType 401) = 3
    ∧ attemptsWhenAlwaysFailing sendRetryConfig (sendA2AErrorType 400) = 3
    ∧ ¬ attemptsWhenAlwaysFailing sendRetryConfig (sendA2AErrorType 401) = 1
    ∧ sendRetryConfig.nonRetryableErrorTypes = []
    ∧ retryDelayMs sendRetryConfig 1 = 1000
    ∧ retryDelayMs sendRetryConfig 2 = 2000
    ∧ retryDelayMs sendRetryConfig 5 = 10000 := by
  decide

end Order66
